import Mathlib

/-!
# NeuroFlow orchestration layer: a shallow embedding

This file embeds the orchestration core of the NeuroFlow EEG application
(`src/app/core/workers.py` and `src/app/ui/main_window.py`) in Lean 4 and
proves properties of the embedded operations.

Modelling conventions:
* The numerical signal-processing backend (MNE-Python) is opaque.  A
  `Backend` record decides, per call, whether the call succeeds or raises,
  mirroring the `try/except` structure of the worker methods.  On success
  the in-place mutations are recorded as transformation tags on the working
  copy; MNE filtering/ICA-application/interpolation preserve the channel
  and sample dimensions, which the model reflects by leaving those fields
  untouched.
* Python strings are modelled by `String`; `str.split`, `str.strip`,
  `str.isdigit` and `int()` are re-implemented structurally over the
  character list so that they reduce inside the kernel.
* Qt signal emission is modelled by returning the ordered list of emitted
  events together with the successor state; the queued single-threaded
  delivery contract means a request is fully processed by the worker and
  its events are then handled, in order, by the main-window slots.
* Timestamps in lineage entries are not modelled: the verified claims
  compare entry counts, order, operation kinds and parameters only.
-/

namespace NeuroFlow

/-! ## String primitives (Python `str` semantics, kernel-computable) -/

/-- Python `str.split(',')` on a character list: splits at every comma and
keeps empty fields. -/
def splitCommaAux : List Char → List (List Char)
  | [] => [[]]
  | c :: t =>
    if c = ',' then [] :: splitCommaAux t
    else
      match splitCommaAux t with
      | [] => [[c]]
      | h :: r => (c :: h) :: r

/-- Python whitespace test used by `str.strip` (ASCII subset). -/
def isSpaceChar (c : Char) : Bool :=
  c = ' ' ∨ c = '\t' ∨ c = '\n' ∨ c = '\r'

/-- Python `str.strip()` on a character list. -/
def stripChars (l : List Char) : List Char :=
  ((l.dropWhile isSpaceChar).reverse.dropWhile isSpaceChar).reverse

/-- Python `str.isdigit()` restricted to ASCII: non-empty and all decimal
digits.  (Non-ASCII digit classes are outside the model.) -/
def isDigitsChars (l : List Char) : Bool :=
  ¬ l.isEmpty ∧ l.all Char.isDigit

/-- Python `int()` on an all-digit character list. -/
def natOfDigits (l : List Char) : Nat :=
  l.foldl (fun n c => n * 10 + (c.toNat - 48)) 0

/-- Python `str.endswith` (structural, via list suffix test). -/
def sEndsWith (s suf : String) : Bool :=
  List.isSuffixOf suf.data s.data

/-- Python `str.strip()` emptiness test on a `String`. -/
def strippedEmpty (s : String) : Bool :=
  (stripChars s.data).isEmpty

/-! ## Data model

The working dataset (`mne.io.Raw`), the fitted decomposition model
(`mne.preprocessing.ICA`), the epoch collection (`mne.Epochs`) and the
averaged response (`mne.Evoked`), abstracted to the fields the
orchestration layer reads and writes. -/

/-- One in-place mutation applied to the working copy by the backend. -/
inductive Xform where
  | bandpass (lf hf : Option Rat)
  | notch (freq : Rat)
  | icaApplied (excludes : List Nat)
  | interpolated (channels : List String)
  deriving DecidableEq, Repr

/-- The continuous multi-channel recording (an `mne.io.Raw` object): the
fields the worker inspects or mutates.  `transform` records the cumulative
in-place mutations of the working copy. -/
structure RawData where
  nChannels : Nat
  nSamples : Nat
  sfreq : Rat
  chNames : List String
  montage : Bool
  bads : List String
  annotations : List String
  filenames : List String
  transform : List Xform
  deriving DecidableEq, Repr

/-- A fitted ICA decomposition (`mne.preprocessing.ICA`). -/
structure ICAModel where
  nComponents : Nat
  fittedOn : List Xform
  exclude : List Nat
  deriving DecidableEq, Repr

/-- A segmented epoch collection (`mne.Epochs`). -/
structure EpochsData where
  eventName : String
  tmin : Rat
  tmax : Rat
  n : Nat
  baselineApplied : Bool
  chNames : List String
  srcTransform : List Xform
  deriving DecidableEq, Repr

/-- An averaged evoked response (`mne.Evoked`): `nAve` is the number of
source epochs that were averaged. -/
structure Erp where
  nAve : Nat
  chNames : List String
  deriving DecidableEq, Repr

/-! ## Lineage entries and UI-side session metadata -/

/-- Parameters recorded with a lineage entry (`pipeline_history` in
`MainWindow`). -/
inductive HistParams where
  | loaded (filename : String) (typ : String)
  | filtered (highpass lowpass notchp : Option Rat)
  | icaExclusion (excluded : List Nat)
  | interpolation (channels : List String)
  | epochRejection (kept rejected : Nat)
  deriving DecidableEq, Repr

/-- One entry of the append-only lineage log (`pipeline_history`). -/
structure HistEntry where
  action : String
  params : HistParams
  deriving DecidableEq, Repr

/-- Values of the parameter widgets captured by
`MainWindow._collect_session_state`. -/
structure UiParams where
  hp : String
  lp : String
  notch : String
  icaExclude : String
  eventSelected : String
  eventIndex : Int
  tmin : Rat
  tmax : Rat
  baselineChecked : Bool
  tfrChannel : String
  tfrChannelIndex : Int
  tfrL : Rat
  tfrH : Rat
  tfrCycles : Nat
  tfrBaselineMode : String
  tfrBaselineIndex : Int
  deriving DecidableEq, Repr

/-- The session artifact built by `MainWindow._collect_session_state` and
written/read by the session-persistence slots. -/
structure Payload where
  raw : Option RawData
  rawOriginal : Option RawData
  ica : Option ICAModel
  epochs : Option EpochsData
  epochsData : Option EpochsData
  events : Option (List String)
  eventId : Option (List String)
  pipelineHistory : List HistEntry
  sourceFilename : Option String
  currentFilterInfo : String
  epochsInspected : Bool
  uiParams : UiParams
  eventItems : List String
  channelItems : List String
  deriving DecidableEq, Repr

/-! ## Worker events and state -/

/-- The Qt signals emitted by `EEGWorker`, in emission order. -/
inductive WEvent where
  | log (msg : String)
  | errorOccurred (msg : String)
  | dataLoaded (raw : RawData)
  | icaReady (ica : ICAModel)
  | eventsLoaded (eventId : List String)
  | erpReady (evoked : Erp)
  | tfrReady
  | connectivityReady
  | saveFinished (filename : String)
  | interpolationDone (channels : List String)
  | dataUpdated (raw : RawData) (infoStr : String)
  | sessionLoaded (p : Payload)
  | finished
  deriving DecidableEq, Repr

/-- The mutable fields of the worker object (`EEGWorker.__init__`). -/
structure WorkerState where
  raw : Option RawData
  raw_original : Option RawData
  ica : Option ICAModel
  events : Option (List String)
  event_id : Option (List String)
  epochs : Option EpochsData
  deriving DecidableEq, Repr

/-- Fresh worker state (`EEGWorker()`): every field `None`. -/
def initWorker : WorkerState :=
  ⟨none, none, none, none, none, none⟩

/-- The opaque signal-processing backend.  Each field decides whether the
corresponding MNE call raises (`some msg`) or succeeds (`none`); on
success the model applies the canonical state change. -/
structure Backend where
  readRaw : String → Except String RawData
  eventsOk : RawData → Option String
  filterOk : RawData → Option Rat → Option Rat → Option String
  notchOk : RawData → Rat → Option String
  icaFitOk : RawData → Option String
  icaApplyOk : ICAModel → RawData → Option String
  epochsOk : RawData → String → Rat → Rat → Option String
  averageOk : EpochsData → Option String
  tfrOk : EpochsData → String → Option String
  connectivityOk : EpochsData → Option String
  saveRawOk : String → Option String
  saveEpochsOk : String → Option String
  interpolateOk : RawData → List String → Option String
  hasConnectivity : Bool

/-! ## Worker operations (`src/app/core/workers.py`) -/

/-- Python `os.path.basename`. -/
def basenameOf (p : String) : String :=
  ⟨(((p.data.reverse.takeWhile (fun c => ¬ c = '/'))).reverse)⟩

/-- Python `pathlib.Path(p).stem`: basename with a final extension removed. -/
def stemOf (p : String) : String :=
  let b := (basenameOf p).data
  if b.contains '.' then ⟨(b.reverse.dropWhile (fun c => ¬ c = '.')).drop 1 |>.reverse⟩
  else ⟨b⟩

/-- Embeds `EEGWorker.load_data` (workers.py:48-116).  Loads a recording,
normalises channel types and montage, keeps a pristine copy, extracts
annotation events and emits the result signals.  Nothing in this method
touches `self.ica` or `self.epochs`. -/
def load_data (B : Backend) (file_path : String) (s : WorkerState) :
    WorkerState × List WEvent :=
  let filename := basenameOf file_path
  let e0 : List WEvent := [.log ("Function: load_data | Loading: " ++ filename)]
  if sEndsWith file_path ".vhdr" ∨ sEndsWith file_path ".fif" ∨
      sEndsWith file_path ".edf" then
    match B.readRaw file_path with
    | .error e => (s, e0 ++ [.errorOccurred ("Data Loading Error: " ++ e)])
    | .ok r0 =>
      -- channel-type coercion for EOG/ECG names does not change any field
      -- the orchestration layer reads; it is not tracked in the model.
      let montageEvts : List WEvent :=
        if r0.montage then [.log "Dataset already contains montage information."]
        else [.log "Montage is missing. Applying standard_1020 montage...",
              .log "Successfully applied standard_1020 montage."]
      let r1 : RawData := if r0.montage then r0 else { r0 with montage := true }
      let s1 : WorkerState := { s with raw := some r1, raw_original := some r1 }
      let e1 := e0 ++ montageEvts ++
        [.log "Original data backup created for comparison.", .dataLoaded r1]
      match B.eventsOk r1 with
      | none =>
        let eid := r1.annotations.dedup
        ({ s1 with events := some r1.annotations, event_id := some eid },
          e1 ++ [.log "Events found.", .eventsLoaded eid,
                 .log "Successfully loaded.", .finished])
      | some _ =>
        -- the inner `except` only logs and emits an empty mapping; the
        -- previous `self.events`/`self.event_id` are left in place.
        (s1, e1 ++ [.log "No events found in annotations.", .eventsLoaded [],
                    .log "Successfully loaded.", .finished])
  else
    (s, e0 ++ [.errorOccurred
      ("Unsupported format: " ++ filename ++ ". Please use .vhdr, .fif, or .edf")])

/-- Embeds `EEGWorker.run_pipeline` (workers.py:118-157).  Filters the working
copy in place (cumulative); a precondition failure rejects before any
work. -/
def run_pipeline (B : Backend) (l_freq h_freq notch_freq : Rat)
    (s : WorkerState) : WorkerState × List WEvent :=
  match s.raw with
  | none => (s, [.errorOccurred "No data loaded. Please load a dataset first."])
  | some raw0 =>
    let e0 : List WEvent := [.log "Starting preprocessing pipeline..."]
    -- bandpass stage
    let stage1 : Except (WorkerState × List WEvent) (RawData × List WEvent × List String) :=
      if l_freq > 0 ∨ h_freq > 0 then
        let lf : Option Rat := if l_freq > 0 then some l_freq else none
        let hf : Option Rat := if h_freq > 0 then some h_freq else none
        let eB := e0 ++ [.log "Applying Bandpass Filter"]
        match B.filterOk raw0 lf hf with
        | some e =>
          .error (s, eB ++ [.errorOccurred ("Pipeline Error: " ++ e)])
        | none =>
          .ok ({ raw0 with transform := raw0.transform ++ [.bandpass lf hf] },
               eB, ["Bandpass"])
      else .ok (raw0, e0, [])
    match stage1 with
    | .error r => r
    | .ok (raw1, e1, info1) =>
      -- notch stage (applied to the output of the bandpass stage)
      let stage2 : Except (WorkerState × List WEvent) (RawData × List WEvent × List String) :=
        if notch_freq > 0 then
          let eN := e1 ++ [.log "Applying Notch Filter"]
          match B.notchOk raw1 notch_freq with
          | some e =>
            .error ({ s with raw := some raw1 },
                    eN ++ [.errorOccurred ("Pipeline Error: " ++ e)])
          | none =>
            .ok ({ raw1 with transform := raw1.transform ++ [.notch notch_freq] },
                 eN, info1 ++ ["Notch"])
        else .ok (raw1, e1, info1)
      match stage2 with
      | .error r => r
      | .ok (raw2, e2, info2) =>
        let filter_str := String.intercalate " | "
          (if info2.isEmpty then ["Raw Signal"] else info2)
        ({ s with raw := some raw2 },
         e2 ++ [.log ("Pipeline completed: " ++ filter_str),
                .dataUpdated raw2 filter_str, .finished])

/-- Embeds `EEGWorker.run_ica` (workers.py:159-184).  Fits ICA on a highpassed
copy of the working data; the working copy itself is not mutated. -/
def run_ica (B : Backend) (s : WorkerState) : WorkerState × List WEvent :=
  match s.raw with
  | none => (s, [.errorOccurred "No data loaded. Cannot run ICA."])
  | some raw =>
    let e0 : List WEvent := [.log "Fitting ICA (n_components=15, fastica)..."]
    match B.icaFitOk raw with
    | some e => (s, e0 ++ [.errorOccurred ("ICA Fit Error: " ++ e)])
    | none =>
      let m : ICAModel := ⟨15, raw.transform, []⟩
      ({ s with ica := some m },
       e0 ++ [.log "ICA Fit Complete.", .icaReady m, .finished])

/-- The exclusion-string parser inside `EEGWorker.apply_ica`
(workers.py:194-199): keep the comma-separated tokens whose stripped form
is all decimal digits and convert them with `int`. -/
def parseExcludes (exclude_str : String) : List Nat :=
  if strippedEmpty exclude_str then []
  else
    (splitCommaAux exclude_str.data).filterMap fun tok =>
      let t := stripChars tok
      if isDigitsChars t then some (natOfDigits t) else none

/-- Embeds `EEGWorker.apply_ica` (workers.py:186-217).  Sets the exclusion list on
the fitted model, then applies it destructively to the working copy. -/
def apply_ica (B : Backend) (exclude_str : String) (s : WorkerState) :
    WorkerState × List WEvent :=
  match s.ica with
  | none => (s, [.errorOccurred "ICA has not been calculated yet."])
  | some m =>
    let excludes := parseExcludes exclude_str
    let m1 : ICAModel := { m with exclude := excludes }
    let s1 : WorkerState := { s with ica := some m1 }
    let e0 : List WEvent := [.log "Applying ICA exclusion"]
    match s.raw with
    | none =>
      -- `self.ica.apply(self.raw)` with `raw is None` raises inside the
      -- `try` and is converted by the generic handler.
      (s1, e0 ++ [.errorOccurred "ICA Apply Error: raw is None"])
    | some raw =>
      match B.icaApplyOk m1 raw with
      | some e => (s1, e0 ++ [.errorOccurred ("ICA Apply Error: " ++ e)])
      | none =>
        let raw1 := { raw with transform := raw.transform ++ [.icaApplied excludes] }
        ({ s1 with raw := some raw1 },
         e0 ++ [.log "ICA applied to working data. Artifacts removed.",
                .dataUpdated raw1 "ICA Cleaned", .finished])

/-- Number of extracted events matching the requested trigger label. -/
def matchingEvents (eventName : String) (events : List String) : Nat :=
  if eventName = "All Events" then events.length
  else (events.filter (fun l => l = eventName)).length

/-- Embeds `EEGWorker.create_epochs` (workers.py:219-284).  Replaces
`self.epochs` with a freshly segmented collection; precondition failures
reject before any work. -/
def create_epochs (B : Backend) (event_name : String) (tmin tmax : Rat)
    (apply_baseline : Bool) (s : WorkerState) : WorkerState × List WEvent :=
  match s.raw with
  | none => (s, [.errorOccurred "No data loaded."])
  | some raw =>
    match s.events, s.event_id with
    | some evs, some eid =>
      let e0 : List WEvent := [.log ("Creating epochs for: " ++ event_name)]
      if event_name ≠ "All Events" ∧ ¬ eid.contains event_name then
        (s, e0 ++ [.errorOccurred ("Event not found: " ++ event_name)])
      else
        match B.epochsOk raw event_name tmin tmax with
        | some e => (s, e0 ++ [.errorOccurred ("Epoch Creation Error: " ++ e)])
        | none =>
          let n := matchingEvents event_name evs
          let ep : EpochsData :=
            ⟨event_name, tmin, tmax, n, apply_baseline, raw.chNames, raw.transform⟩
          let eB : List WEvent :=
            if apply_baseline then [.log "Applied baseline correction"] else []
          ({ s with epochs := some ep },
           e0 ++ eB ++ [.log "Created epochs.", .finished])
    | _, _ => (s, [.errorOccurred "No events found in this dataset."])

/-- Embeds `EEGWorker.compute_erp` (workers.py:286-309).  Averages the stored
epochs; read-only with respect to the session state. -/
def compute_erp (B : Backend) (s : WorkerState) : WorkerState × List WEvent :=
  match s.epochs with
  | none =>
    (s, [.errorOccurred
      "No epochs available. Please create epochs first using the Segmentation section."])
  | some ep =>
    let e0 : List WEvent := [.log "Computing ERP from epochs..."]
    match B.averageOk ep with
    | some e => (s, e0 ++ [.errorOccurred ("ERP Error: " ++ e)])
    | none =>
      let evoked : Erp := ⟨ep.n, ep.chNames⟩
      (s, e0 ++ [.log "ERP Computed.", .erpReady evoked, .finished])

/-- Embeds `EEGWorker.compute_tfr` (workers.py:311-378). -/
def compute_tfr (B : Backend) (ch_name : String) (l_freq h_freq : Rat)
    (n_cycles_base : Nat) (baseline_mode : String) (s : WorkerState) :
    WorkerState × List WEvent :=
  match s.epochs with
  | none =>
    (s, [.errorOccurred
      "No epochs available. Please create epochs first using the Segmentation section."])
  | some ep =>
    let e0 : List WEvent := [.log "Computing TFR"]
    if ¬ ep.chNames.contains ch_name then
      (s, e0 ++ [.errorOccurred ("Channel not found in epochs: " ++ ch_name)])
    else
      match B.tfrOk ep ch_name with
      | some e => (s, e0 ++ [.errorOccurred ("TFR Error: " ++ e)])
      | none =>
        let eB : List WEvent :=
          if baseline_mode ≠ "none" then [.log "Applied baseline correction"] else []
        (s, e0 ++ [.log "Using epochs for TFR analysis..."] ++ eB ++
            [.tfrReady, .finished])

/-- Embeds `EEGWorker.save_data` (workers.py:380-398). -/
def save_data (B : Backend) (filename : String) (s : WorkerState) :
    WorkerState × List WEvent :=
  match s.raw with
  | none => (s, [.errorOccurred "No data to save."])
  | some _ =>
    let e0 : List WEvent := [.log ("Saving data to " ++ filename)]
    let fname := if sEndsWith filename ".fif" then filename else filename ++ ".fif"
    match B.saveRawOk fname with
    | some e => (s, e0 ++ [.errorOccurred ("Save Error: " ++ e)])
    | none => (s, e0 ++ [.saveFinished fname, .log "Data saved successfully"])

/-- Embeds `EEGWorker.save_epochs` (workers.py:400-421). -/
def save_epochs (B : Backend) (filename : String) (s : WorkerState) :
    WorkerState × List WEvent :=
  match s.epochs with
  | none => (s, [.errorOccurred "No epochs to save. Please create epochs first."])
  | some _ =>
    let e0 : List WEvent := [.log ("Saving epochs to " ++ filename)]
    let fname :=
      if sEndsWith filename "-epo.fif" then filename
      else if sEndsWith filename ".fif" then
        ⟨filename.data.dropLast.dropLast.dropLast.dropLast⟩ ++ "-epo.fif"
      else filename ++ "-epo.fif"
    match B.saveEpochsOk fname with
    | some e => (s, e0 ++ [.errorOccurred ("Save Epochs Error: " ++ e)])
    | none => (s, e0 ++ [.saveFinished fname, .log "Epochs saved successfully"])

/-- Embeds `EEGWorker.compute_connectivity` (workers.py:423-459). -/
def compute_connectivity (B : Backend) (s : WorkerState) :
    WorkerState × List WEvent :=
  match s.epochs with
  | none =>
    (s, [.errorOccurred
      "No epochs available. Please create epochs first using the Segmentation section."])
  | some ep =>
    if ¬ B.hasConnectivity then
      (s, [.errorOccurred "mne-connectivity not installed. pip install mne-connectivity"])
    else
      let e0 : List WEvent := [.log "Computing Alpha Band Connectivity (wPLI)"]
      match B.connectivityOk ep with
      | some e => (s, e0 ++ [.errorOccurred ("Connectivity Error: " ++ e)])
      | none =>
        (s, e0 ++ [.connectivityReady, .finished,
                   .log "Connectivity Computation Complete."])

/-- Embeds `EEGWorker.interpolate_bads` (workers.py:462-516). -/
def interpolate_bads (B : Backend) (bad_channels : List String)
    (s : WorkerState) : WorkerState × List WEvent :=
  match s.raw with
  | none => (s, [.errorOccurred "No data loaded. Cannot interpolate channels."])
  | some raw =>
    if bad_channels.isEmpty then
      (s, [.log "No channels selected for interpolation.", .finished])
    else
      let e0 : List WEvent := [.log "Interpolating bad channels"]
      if ¬ raw.montage then
        (s, e0 ++ [.errorOccurred "Montage not set. Interpolation requires sensor positions."])
      else
        let invalid := bad_channels.filter (fun ch => ¬ raw.chNames.contains ch)
        if ¬ invalid.isEmpty then
          (s, e0 ++ [.errorOccurred "Invalid channels. These channels do not exist in the dataset."])
        else
          let raw1 := { raw with bads := bad_channels }
          let e1 := e0 ++ [.log "Marked channels as bad."]
          match B.interpolateOk raw1 bad_channels with
          | some e =>
            ({ s with raw := some raw1 },
             e1 ++ [.errorOccurred ("Interpolation Error: " ++ e)])
          | none =>
            let raw2 := { raw1 with
                          bads := []
                          transform := raw1.transform ++ [.interpolated bad_channels] }
            ({ s with raw := some raw2 },
             e1 ++ [.log "Successfully interpolated channels",
                    .dataUpdated raw2 "Interpolated",
                    .interpolationDone bad_channels, .finished])

/-! ## The worker request surface and the sequential executor -/

/-- One request submitted to the worker thread (the `request_*` signals of
`MainWindow` wired to `EEGWorker` slots). -/
inductive Request where
  | loadData (path : String)
  | runPipeline (l_freq h_freq notch_freq : Rat)
  | runIca
  | applyIca (exclude_str : String)
  | createEpochs (event_name : String) (tmin tmax : Rat) (baseline : Bool)
  | computeErp
  | computeTfr (ch : String) (l h : Rat) (ncb : Nat) (mode : String)
  | computeConnectivity
  | saveData (filename : String)
  | saveEpochs (filename : String)
  | interpolateBads (channels : List String)
  deriving DecidableEq, Repr

/-- Dispatch one queued request to the corresponding worker slot. -/
def step (B : Backend) (req : Request) (s : WorkerState) :
    WorkerState × List WEvent :=
  match req with
  | .loadData p => load_data B p s
  | .runPipeline l h n => run_pipeline B l h n s
  | .runIca => run_ica B s
  | .applyIca e => apply_ica B e s
  | .createEpochs en t0 t1 b => create_epochs B en t0 t1 b s
  | .computeErp => compute_erp B s
  | .computeTfr c l h n m => compute_tfr B c l h n m s
  | .computeConnectivity => compute_connectivity B s
  | .saveData f => save_data B f s
  | .saveEpochs f => save_epochs B f s
  | .interpolateBads chs => interpolate_bads B chs s

/-- The single-threaded executor: requests run strictly one at a time, in
submission order; the result groups the events emitted per request. -/
def runRequests (B : Backend) : List Request → WorkerState →
    WorkerState × List (List WEvent)
  | [], s => (s, [])
  | r :: rest, s =>
    let (s1, evs) := step B r s
    let (s2, groups) := runRequests B rest s1
    (s2, evs :: groups)

/-! ## Main-window state (`src/app/ui/main_window.py`) -/

/-- The `MainWindow` fields the orchestration claims are about, plus the
worker object it owns.  `statusLog` models the sidebar status log
(`log_status`; `show_error` prepends `ERROR:`). -/
structure AppState where
  worker : WorkerState
  rawData : Option RawData
  rawOriginal : Option RawData
  epochsData : Option EpochsData
  uiEpochs : Option EpochsData
  epochsInspected : Bool
  pipelineHistory : List HistEntry
  sourceFilename : Option String
  currentFilterInfo : String
  currentProjectPath : Option String
  pendingFilterParams : Option (Option Rat × Option Rat × Option Rat)
  pendingIcaExcludes : Option (List Nat)
  comboEvents : List String
  comboChannels : List String
  ui : UiParams
  lastErp : Option Erp
  statusLog : List String
  deriving DecidableEq, Repr

/-- Embeds `MainWindow._collect_session_state` (main_window.py:313-362). -/
def collectSessionState (a : AppState) : Payload where
  raw := a.worker.raw
  rawOriginal := a.worker.raw_original
  ica := a.worker.ica
  epochs := a.worker.epochs
  epochsData := a.epochsData
  events := a.worker.events
  eventId := a.worker.event_id
  pipelineHistory := a.pipelineHistory
  sourceFilename := a.sourceFilename
  currentFilterInfo := a.currentFilterInfo
  epochsInspected := a.epochsInspected
  uiParams := a.ui
  eventItems := a.comboEvents
  channelItems := a.comboChannels

/-- Embeds `MainWindow._restore_ui_for_data` (main_window.py:468-...): re-enables
controls and re-points the local data references; for raw data it clears
`epochs_data`, for epochs it clears the raw references. -/
def restoreUiForData (a : AppState) (isEpochs : Bool) (raw : Option RawData)
    (eps : Option EpochsData) : AppState :=
  if isEpochs then
    { a with epochsData := eps, rawData := none, rawOriginal := none }
  else
    { a with rawData := raw, rawOriginal := a.worker.raw_original, epochsData := none }

/-- Embeds `MainWindow._restore_session_state` (main_window.py:364-466).  Restores
widget values and local references from the payload, then reinstates the
saved lineage log and metadata that `on_data_loaded` would have reset. -/
def restoreSessionState (a : AppState) (p : Payload) : AppState :=
  let a1 := { a with ui := p.uiParams }
  let a2 := { a1 with
              rawData := p.raw
              rawOriginal := p.rawOriginal
              uiEpochs := p.epochs
              epochsData := p.epochsData }
  let a3 :=
    if p.raw.isSome then restoreUiForData a2 false p.raw none
    else if p.epochs.isSome then restoreUiForData a2 true none p.epochs
    else if p.epochsData.isSome then restoreUiForData a2 true none p.epochsData
    else a2
  { a3 with
    comboEvents := p.eventItems
    comboChannels := p.channelItems
    pipelineHistory := p.pipelineHistory
    sourceFilename := p.sourceFilename
    currentFilterInfo := p.currentFilterInfo
    epochsInspected := p.epochsInspected }

/-- One queued event handled by the connected `MainWindow` slot
(main_window.py:72-91 wiring). -/
def handleEvent (a : AppState) (ev : WEvent) : AppState :=
  match ev with
  | .log m => { a with statusLog := a.statusLog ++ [m] }
  | .errorOccurred m =>
    { a with statusLog := a.statusLog ++ ["ERROR: " ++ m] }
  | .dataLoaded r =>
    -- `on_data_loaded` (main_window.py:964-1043), raw branch: the worker
    -- only ever emits `data_loaded` with a Raw object.
    let stem := stemOf (r.filenames.headD "unknown")
    { a with
      rawData := some r
      rawOriginal := a.worker.raw_original
      epochsData := none
      currentFilterInfo := "Raw Signal"
      sourceFilename := some stem
      pipelineHistory := [HistEntry.mk "data_loaded" (.loaded stem "raw")]
      comboChannels := r.chNames }
  | .eventsLoaded ids =>
    -- `populate_event_dropdown` (main_window.py:1110-1132)
    let a1 := { a with uiEpochs := none, epochsInspected := false }
    if ids.isEmpty then { a1 with comboEvents := [] }
    else { a1 with comboEvents := "All Events" :: ids }
  | .dataUpdated r info =>
    -- `on_data_updated` (main_window.py:1540-1566)
    let a1 := { a with rawData := some r, currentFilterInfo := info }
    let a2 :=
      match a1.pendingFilterParams with
      | some (hp, lp, np) =>
        { a1 with
          pipelineHistory := a1.pipelineHistory ++ [HistEntry.mk "filter" (.filtered hp lp np)]
          pendingFilterParams := none }
      | none => a1
    match a2.pendingIcaExcludes with
    | some ex =>
      { a2 with
        pipelineHistory := a2.pipelineHistory ++ [HistEntry.mk "ica_exclusion" (.icaExclusion ex)]
        pendingIcaExcludes := none }
    | none => a2
  | .erpReady ev => { a with lastErp := some ev }
  | .interpolationDone chs =>
    -- `on_interpolation_done` (main_window.py:1619-1640)
    { a with
      rawData := a.worker.raw
      pipelineHistory := a.pipelineHistory ++ [HistEntry.mk "channel_interpolation" (.interpolation chs)]
      currentFilterInfo := "Interpolated" }
  | .sessionLoaded p => restoreSessionState a p
  | _ => a

/-! ## Session persistence (worker side)

The slots `EEGWorker.save_session` and `EEGWorker.load_session` are wired
from `MainWindow` (main_window.py:105-106, 85) but their bodies are not
among the available sources; they are modelled from the spec. -/

/-- The file system holding session artifacts, keyed by path. -/
abbrev FileStore := List (String × Payload)

/-- Modelled from the spec: `EEGWorker.save_session` (wired at
main_window.py:105; body not in the available sources).  Per §4.5, save
serializes the dataset, decomposition model, epoch collection, lineage log
and configuration snapshot into one artifact at the caller-chosen path. -/
def save_session (path : String) (p : Payload) (fs : FileStore)
    (s : WorkerState) : WorkerState × FileStore × List WEvent :=
  (s, (path, p) :: fs, [.saveFinished path, .finished])

/-- Modelled from the spec: `EEGWorker.load_session` (wired at
main_window.py:106; body not in the available sources).  Per §4.5, restore
is all-or-nothing: success atomically replaces the entire session state
and emits the restored payload on `session_loaded`; failure leaves the
prior state untouched and surfaces an error. -/
def load_session (path : String) (fs : FileStore) (s : WorkerState) :
    WorkerState × List WEvent :=
  match fs.lookup path with
  | none => (s, [.errorOccurred ("Session Load Error: " ++ path)])
  | some p =>
    ({ s with
       raw := p.raw
       raw_original := p.rawOriginal
       ica := p.ica
       events := p.events
       event_id := p.eventId
       epochs := p.epochs },
     [.sessionLoaded p, .finished])

/-! ## The host-side actions and end-to-end dispatch -/

/-- The world: the main window (owning the worker) plus the file system
for session artifacts. -/
structure World where
  app : AppState
  files : FileStore

/-- A user-triggered action on the main window. -/
inductive UserAction where
  | loadData (path : String)
  | launchPipeline (hp lp notch : Rat)
  | runIcaClick
  | applyIcaClick
  | createEpochsClick
  | computeErpClick
  | saveProjectAs (path : String)
  | openProject (chosen : Option String) (confirmed : Bool)

/-- Run a worker request synchronously after the click handler, then let
the main window handle the emitted events in order (the queued-connection
contract: strictly sequential, FIFO). -/
def runWorkerRequest (B : Backend) (req : Request) (a : AppState) : AppState :=
  let (w1, evs) := step B req a.worker
  evs.foldl handleEvent { a with worker := w1 }

/-- Embeds `MainWindow.on_open_project` (main_window.py:287-311): the trust
warning shown before any session restore; declining emits nothing. The
returned `Option String` is the path of the emitted `request_load_session`
signal, if any. -/
def on_open_project (a : AppState) (chosen : Option String)
    (confirmed : Bool) : AppState × Option String :=
  match chosen with
  | none => (a, none)
  | some p =>
    if confirmed then ({ a with currentProjectPath := some p }, some p)
    else (a, none)

/-- Dispatch one user action through the click handler, the worker slot
and the event-delivery loop. -/
def dispatch (B : Backend) (act : UserAction) (w : World) : World :=
  match act with
  | .loadData path =>
    { w with app := runWorkerRequest B (.loadData path) w.app }
  | .launchPipeline hp lp notch =>
    -- `launch_pipeline` (main_window.py:1067-1092): records the pending
    -- filter parameters, then emits the request.
    let pend : Option Rat × Option Rat × Option Rat :=
      (if hp > 0 then some hp else none,
       if lp > 0 then some lp else none,
       if notch > 0 then some notch else none)
    let a1 := { w.app with pendingFilterParams := some pend }
    { w with app := runWorkerRequest B (.runPipeline hp lp notch) a1 }
  | .runIcaClick =>
    { w with app := runWorkerRequest B .runIca w.app }
  | .applyIcaClick =>
    -- `apply_ica_click` (main_window.py:1097-1108)
    let txt := w.app.ui.icaExclude
    let a1 := { w.app with pendingIcaExcludes := some (parseExcludes txt) }
    { w with app := runWorkerRequest B (.applyIca txt) a1 }
  | .createEpochsClick =>
    -- `create_epochs_click` (main_window.py:1134-1184)
    let a := w.app
    if a.epochsData.isSome ∨ a.worker.epochs.isSome then
      -- pre-existing epochs short-circuit: no worker request is emitted
      let a1 :=
        if a.worker.epochs.isNone ∧ a.epochsData.isSome then
          { a with worker := { a.worker with epochs := a.epochsData } }
        else a
      { w with app :=
        { a1 with
          statusLog := a1.statusLog ++ ["Using pre-loaded epochs from file."]
          epochsInspected := false } }
    else if a.worker.raw.isNone then
      { w with app :=
        { a with statusLog := a.statusLog ++ ["ERROR: No raw data loaded. Cannot create epochs."] } }
    else
      let eventName := a.ui.eventSelected
      if eventName = "" then
        { w with app :=
          { a with statusLog := a.statusLog ++ ["ERROR: Please select an event trigger first."] } }
      else
        let a1 := { a with
          statusLog := a.statusLog ++ ["Creating epochs for event: " ++ eventName]
          epochsInspected := false }
        let req := Request.createEpochs eventName a.ui.tmin a.ui.tmax a.ui.baselineChecked
        { w with app := runWorkerRequest B req a1 }
  | .computeErpClick =>
    -- `compute_erp_click` (main_window.py:1305-1315)
    let a := w.app
    if a.worker.epochs.isNone then
      { w with app :=
        { a with statusLog := a.statusLog ++
            ["ERROR: No epochs available. Please create epochs first using the Segmentation section."] } }
    else
      let a1 := { a with statusLog := a.statusLog ++ ["Computing ERP..."] }
      { w with app := runWorkerRequest B .computeErp a1 }
  | .saveProjectAs path =>
    -- `on_save_project_as` (main_window.py:268-285)
    let a := w.app
    if a.worker.raw.isNone ∧ a.worker.epochs.isNone then w
    else
      let a1 := { a with currentProjectPath := some path }
      let payload := collectSessionState a1
      let (w1, fs1, evs) := save_session path payload w.files a1.worker
      { app := evs.foldl handleEvent { a1 with worker := w1 }, files := fs1 }
  | .openProject chosen confirmed =>
    let (a1, req) := on_open_project w.app chosen confirmed
    match req with
    | none => { w with app := a1 }
    | some p =>
      let (w1, evs) := load_session p w.files a1.worker
      { w with app := evs.foldl handleEvent { a1 with worker := w1 } }

/-! ## Batch runner

`EEGWorker.run_batch_job` is invoked by `MainWindow._on_start_batch_click`
(main_window.py:1791-1798) and its progress/summary signals are consumed
at main_window.py:87-91, but its body is not among the available sources;
it is modelled from the spec (§4.4). -/

/-- Events of a batch job: per-item progress, per-item recorded failures,
and exactly one terminal summary `(completed, failed, skipped)`. -/
inductive BEvent where
  | progress (index total : Nat) (item : String)
  | itemError (item msg : String)
  | summary (completed failed skipped : Nat)
  deriving DecidableEq, Repr

/-- Modelled from the spec: the per-item loop of `EEGWorker.run_batch_job`
(§4.4): fixed-order iteration, cooperative cancellation polled once per
item boundary, and catch-record-continue per-item failure handling. -/
def batchLoop (process : String → Except String Unit) (cancelled : Nat → Bool)
    (total : Nat) : List String → Nat → Nat → Nat → List BEvent
  | [], _, completed, failed => [.summary completed failed 0]
  | item :: rest, i, completed, failed =>
    if cancelled i then
      [.summary completed failed (rest.length + 1)]
    else
      match process item with
      | .ok _ =>
        .progress (i + 1) total item ::
          batchLoop process cancelled total rest (i + 1) (completed + 1) failed
      | .error e =>
        .itemError item e :: .progress (i + 1) total item ::
          batchLoop process cancelled total rest (i + 1) completed (failed + 1)

/-- Modelled from the spec: `EEGWorker.run_batch_job` (invoked at
main_window.py:1792; body not in the available sources).  Drives the
configured stage sequence over every input in order, isolating per-item
failures, and always emits exactly one terminal summary. -/
def run_batch_job (process : String → Except String Unit)
    (cancelled : Nat → Bool) (inputs : List String) : List BEvent :=
  batchLoop process cancelled inputs.length inputs 0 0 0

/-! ## Derived notions used to state the claims -/

/-- The StageGate is stateless (§4.1): the pipeline position is derived
purely from which session fields are present
(dataset, decomposition model, epoch collection, extracted events). -/
def stageGateState (s : WorkerState) : Bool × Bool × Bool × Bool :=
  (s.raw.isSome, s.ica.isSome, s.epochs.isSome, s.events.isSome)

/-- The precondition check each worker operation performs on entry, with
the error message it emits when the required predecessor field is absent
(`None` when the precondition is satisfied or the operation has none). -/
def precondMsg (req : Request) (s : WorkerState) : Option String :=
  match req with
  | .loadData _ => none
  | .runPipeline _ _ _ =>
    if s.raw.isNone then some "No data loaded. Please load a dataset first." else none
  | .runIca =>
    if s.raw.isNone then some "No data loaded. Cannot run ICA." else none
  | .applyIca _ =>
    if s.ica.isNone then some "ICA has not been calculated yet." else none
  | .createEpochs _ _ _ _ =>
    if s.raw.isNone then some "No data loaded."
    else if s.events.isNone ∨ s.event_id.isNone then
      some "No events found in this dataset."
    else none
  | .computeErp =>
    if s.epochs.isNone then
      some "No epochs available. Please create epochs first using the Segmentation section."
    else none
  | .computeTfr _ _ _ _ _ =>
    if s.epochs.isNone then
      some "No epochs available. Please create epochs first using the Segmentation section."
    else none
  | .computeConnectivity =>
    if s.epochs.isNone then
      some "No epochs available. Please create epochs first using the Segmentation section."
    else none
  | .saveData _ =>
    if s.raw.isNone then some "No data to save." else none
  | .saveEpochs _ =>
    if s.epochs.isNone then some "No epochs to save. Please create epochs first." else none
  | .interpolateBads _ =>
    if s.raw.isNone then some "No data loaded. Cannot interpolate channels." else none

/-- The in-place mutations one `run_pipeline` request records on the
working copy for the given parameters. -/
def filterXforms (l_freq h_freq notch_freq : Rat) : List Xform :=
  (if l_freq > 0 ∨ h_freq > 0 then
    [Xform.bandpass (if l_freq > 0 then some l_freq else none)
      (if h_freq > 0 then some h_freq else none)]
   else []) ++
  (if notch_freq > 0 then [Xform.notch notch_freq] else [])

/-- The lineage entry `on_data_updated` records for a completed filter
request with the given submitted parameters. -/
def filterEntry (hp lp np : Rat) : HistEntry :=
  HistEntry.mk "filter" (.filtered (if hp > 0 then some hp else none)
    (if lp > 0 then some lp else none) (if np > 0 then some np else none))

/-- The claim-side description of the ICA exclusion parser: exactly the
comma-separated tokens whose (stripped) text consists solely of decimal
digits, each converted to its numeric value; every other token dropped. -/
def digitTokens (s : String) : List Nat :=
  (splitCommaAux s.data).filterMap fun tok =>
    let t := stripChars tok
    if ¬ t.isEmpty ∧ t.all Char.isDigit then some (natOfDigits t) else none

/-- Whether a per-item batch stage sequence succeeded. -/
def isOkE (r : Except String Unit) : Bool :=
  match r with
  | .ok _ => true
  | .error _ => false

/-- The determinate per-item progress events (§4.4) the batch loop emits
for a run of successfully processed items starting at index `i`. -/
def progEvents (total : Nat) : Nat → List String → List BEvent
  | _, [] => []
  | i, x :: xs => .progress (i + 1) total x :: progEvents total (i + 1) xs

/-! ## Concrete fixtures -/

/-- An 8-channel, 120 s (12000 samples at 100 Hz) recording whose
annotation stream contains three `A` triggers. -/
def demoRaw : RawData where
  nChannels := 8
  nSamples := 12000
  sfreq := 100
  chNames := ["Fp1", "Fp2", "C3", "C4", "P3", "P4", "O1", "O2"]
  montage := true
  bads := []
  annotations := ["A", "B", "A", "B", "A"]
  filenames := ["sub1.fif"]
  transform := []

/-- A backend on which every processing call succeeds and loading any
path yields `r` (tagged with the load path). -/
def mkBackend (r : RawData) : Backend where
  readRaw := fun p => .ok { r with filenames := [p] }
  eventsOk := fun _ => none
  filterOk := fun _ _ _ => none
  notchOk := fun _ _ => none
  icaFitOk := fun _ => none
  icaApplyOk := fun _ _ => none
  epochsOk := fun _ _ _ _ => none
  averageOk := fun _ => none
  tfrOk := fun _ _ => none
  connectivityOk := fun _ => none
  saveRawOk := fun _ => none
  saveEpochsOk := fun _ => none
  interpolateOk := fun _ _ => none
  hasConnectivity := true

/-- The all-success backend over the demo recording. -/
def okBackend : Backend := mkBackend demoRaw

/-- A backend whose heavy calls raise, for exercising the error paths. -/
def failBackend : Backend :=
  { mkBackend demoRaw with
    readRaw := fun _ => .error "read failure"
    filterOk := fun _ _ _ => some "filter failure" }

/-- Widget values matching the concrete spec scenario:
`filter(1,40,50)`, `segment("A", window=[-0.2,0.5])`, baseline on. -/
def initUi : UiParams where
  hp := "1"
  lp := "40"
  notch := "50"
  icaExclude := "0"
  eventSelected := "A"
  eventIndex := 1
  tmin := Rat.mk' (-1) 5
  tmax := Rat.mk' 1 2
  baselineChecked := true
  tfrChannel := "Fp1"
  tfrChannelIndex := 0
  tfrL := 4
  tfrH := 40
  tfrCycles := 2
  tfrBaselineMode := "percent"
  tfrBaselineIndex := 0

/-- Embeds `MainWindow.__init__` (main_window.py:47-111): the fresh window state. -/
def initApp : AppState where
  worker := initWorker
  rawData := none
  rawOriginal := none
  epochsData := none
  uiEpochs := none
  epochsInspected := false
  pipelineHistory := []
  sourceFilename := none
  currentFilterInfo := "Raw Signal"
  currentProjectPath := none
  pendingFilterParams := none
  pendingIcaExcludes := none
  comboEvents := []
  comboChannels := []
  ui := initUi
  lastErp := none
  statusLog := []

/-- A fresh application with an empty file store. -/
def initWorld : World := ⟨initApp, []⟩

/-- Python `str.startswith` (structural). -/
def sStartsWith (s pre : String) : Bool :=
  List.isPrefixOf pre.data s.data

/-- How many `show_error` messages the status log records. -/
def errorLogCount (a : AppState) : Nat :=
  (a.statusLog.filter (fun m => sStartsWith m "ERROR: ")).length

/-- A previously segmented epoch collection (trigger `OLD`,
window −0.1 s … 0.3 s, 7 epochs). -/
def oldEpochs : EpochsData :=
  ⟨"OLD", Rat.mk' (-1) 10, Rat.mk' 3 10, 7, true, demoRaw.chNames, []⟩

/-- A session in which a dataset is loaded and an epoch collection already
exists (the state after a first successful segmentation). -/
def epochsWorld : World where
  app :=
    { initApp with
      worker :=
        { initWorker with
          raw := some demoRaw
          events := some demoRaw.annotations
          event_id := some demoRaw.annotations.dedup
          epochs := some oldEpochs }
      rawData := some demoRaw
      comboEvents := ["All Events", "A", "B"] }
  files := []

/-- Concrete scenario (spec §8): load, `filter(1,40,50)`,
`segment("A")`, `average()`. -/
def scenLoad : World := dispatch okBackend (.loadData "sub1.fif") initWorld

def scenFilter : World := dispatch okBackend (.launchPipeline 1 40 50) scenLoad

def scenSegment : World := dispatch okBackend .createEpochsClick scenFilter

def scenAverage : World := dispatch okBackend .computeErpClick scenSegment

/-- Reload scenario: load, fit ICA, segment, then load a second dataset
and apply the (stale) ICA model. -/
def reloadW1 : World := dispatch okBackend (.loadData "sub1.fif") initWorld

def reloadW2 : World := dispatch okBackend .runIcaClick reloadW1

def reloadW2e : World := dispatch okBackend .createEpochsClick reloadW2

def reloadW3 : World := dispatch okBackend (.loadData "sub2.fif") reloadW2e

def reloadW4 : World := dispatch okBackend .applyIcaClick reloadW3

/-- A mixed exclusion string: digits, a letter, a negative number, a
decimal and an empty token. -/
def mixedExcludeStr : String := "0, x, -3, 2.5, , 7"

/-- Whether a worker event is an error event. -/
def isErrorEvent : WEvent → Bool
  | .errorOccurred _ => true
  | _ => false

/-- A worker owning a loaded dataset and a fitted (empty-exclusion) ICA
model. -/
def icaWorker : WorkerState :=
  { initWorker with raw := some demoRaw, ica := some ⟨15, [], []⟩ }

/-- A worker owning a dataset, a fitted ICA model and an epoch
collection — the state just before a reload. -/
def staleWorker : WorkerState :=
  { initWorker with
    raw := some demoRaw
    ica := some ⟨15, [], []⟩
    epochs := some oldEpochs }

/-- The spec §8 scenario over an arbitrary annotation stream: load the
8-channel/120 s dataset, `filter(1,40,50)`, `segment("A")`, `average()`.
`c2W3` is the state after segmentation, `c2W4` after averaging. -/
def c2W1 (anns : List String) : World :=
  dispatch (mkBackend { demoRaw with annotations := anns })
    (.loadData "sub1.fif") initWorld

def c2W2 (anns : List String) : World :=
  dispatch (mkBackend { demoRaw with annotations := anns })
    (.launchPipeline 1 40 50) (c2W1 anns)

def c2W3 (anns : List String) : World :=
  dispatch (mkBackend { demoRaw with annotations := anns })
    .createEpochsClick (c2W2 anns)

def c2W4 (anns : List String) : World :=
  dispatch (mkBackend { demoRaw with annotations := anns })
    .computeErpClick (c2W3 anns)

/-! # Theorems -/

/-- C1. For every worker operation requested while its required
predecessor field is absent (`run_pipeline`, `run_ica`,
`interpolate_bads`, `save_data` with no dataset loaded; `apply_ica` with
no fitted ICA model; `create_epochs` with no dataset or no events;
`compute_erp`, `compute_tfr`, `compute_connectivity`, `save_epochs` with
no epochs), the operation emits exactly one precondition error event and
returns with the state unchanged, before doing any work; this holds for
every backend and every state, so no request sequence ever makes such an
operation run or crash. -/
theorem C1_precondition_rejection (B : Backend) (req : Request)
    (s : WorkerState) (msg : String) (h : precondMsg req s = some msg) :
    step B req s = (s, [WEvent.errorOccurred msg]) := by
  cases req with
  | loadData p => simp [precondMsg] at h
  | runPipeline l hf n =>
    cases hr : s.raw with
    | none =>
      simp [precondMsg, hr] at h
      simp [step, run_pipeline, hr, ← h]
    | some r => simp [precondMsg, hr] at h
  | runIca =>
    cases hr : s.raw with
    | none =>
      simp [precondMsg, hr] at h
      simp [step, run_ica, hr, ← h]
    | some r => simp [precondMsg, hr] at h
  | applyIca e =>
    cases hi : s.ica with
    | none =>
      simp [precondMsg, hi] at h
      simp [step, apply_ica, hi, ← h]
    | some m => simp [precondMsg, hi] at h
  | createEpochs en t0 t1 b =>
    cases hr : s.raw with
    | none =>
      simp [precondMsg, hr] at h
      simp [step, create_epochs, hr, ← h]
    | some r =>
      cases he : s.events with
      | none =>
        simp [precondMsg, hr, he] at h
        simp [step, create_epochs, hr, he, ← h]
      | some evs =>
        cases hi : s.event_id with
        | none =>
          simp [precondMsg, hr, he, hi] at h
          simp [step, create_epochs, hr, he, hi, ← h]
        | some eid => simp [precondMsg, hr, he, hi] at h
  | computeErp =>
    cases hp : s.epochs with
    | none =>
      simp [precondMsg, hp] at h
      simp [step, compute_erp, hp, ← h]
    | some ep => simp [precondMsg, hp] at h
  | computeTfr c l hf nb m =>
    cases hp : s.epochs with
    | none =>
      simp [precondMsg, hp] at h
      simp [step, compute_tfr, hp, ← h]
    | some ep => simp [precondMsg, hp] at h
  | computeConnectivity =>
    cases hp : s.epochs with
    | none =>
      simp [precondMsg, hp] at h
      simp [step, compute_connectivity, hp, ← h]
    | some ep => simp [precondMsg, hp] at h
  | saveData f =>
    cases hr : s.raw with
    | none =>
      simp [precondMsg, hr] at h
      simp [step, save_data, hr, ← h]
    | some r => simp [precondMsg, hr] at h
  | saveEpochs f =>
    cases hp : s.epochs with
    | none =>
      simp [precondMsg, hp] at h
      simp [step, save_epochs, hp, ← h]
    | some ep => simp [precondMsg, hp] at h
  | interpolateBads chs =>
    cases hr : s.raw with
    | none =>
      simp [precondMsg, hr] at h
      simp [step, interpolate_bads, hr, ← h]
    | some r => simp [precondMsg, hr] at h

/-- Witness for C1: `compute_erp` on the fresh worker (no epochs) is
rejected with the precondition error and no state change. -/
theorem C1_witness :
    precondMsg .computeErp initWorker =
      some "No epochs available. Please create epochs first using the Segmentation section." ∧
    step okBackend .computeErp initWorker = (initWorker,
      [WEvent.errorOccurred
        "No epochs available. Please create epochs first using the Segmentation section."]) :=
  ⟨rfl, C1_precondition_rejection okBackend .computeErp initWorker _ rfl⟩

/-- A stripped-to-nothing character list is all whitespace. -/
lemma stripChars_eq_nil {l : List Char} (h : stripChars l = []) :
    ∀ c ∈ l, isSpaceChar c := by
  unfold stripChars at h
  rw [List.reverse_eq_nil_iff, List.dropWhile_eq_nil_iff] at h
  intro c hc
  rcases List.mem_append.mp
      (by rw [List.takeWhile_append_dropWhile (p := isSpaceChar)]; exact hc) with
    ht | hd
  · exact List.mem_takeWhile_imp ht
  · exact h c (List.mem_reverse.mpr hd)

/-- Splitting a comma-free character list yields the single whole field. -/
lemma splitCommaAux_no_comma {l : List Char} (h : ∀ c ∈ l, c ≠ ',') :
    splitCommaAux l = [l] := by
  induction l with
  | nil => rfl
  | cons c t ih =>
    have hc : c ≠ ',' := h c (List.mem_cons_self c t)
    have ht : splitCommaAux t = [t] := ih fun x hx => h x (List.mem_cons_of_mem c hx)
    simp [splitCommaAux, hc, ht]

/-- The exclusion parser of `apply_ica` agrees, on every input, with the
claim-side description: keep exactly the comma-separated tokens whose
stripped text is all decimal digits (in particular, the special-cased
blank input agrees with the general token filter). -/
lemma parseExcludes_eq_digitTokens (s : String) :
    parseExcludes s = digitTokens s := by
  unfold parseExcludes digitTokens
  split
  case isTrue h =>
    have hnil : stripChars s.data = [] := by
      have := h
      unfold strippedEmpty at this
      exact List.isEmpty_iff.mp this
    have hsp : ∀ c ∈ s.data, isSpaceChar c := stripChars_eq_nil hnil
    have hnc : ∀ c ∈ s.data, c ≠ ',' := by
      intro c hc hcomma
      have := hsp c hc
      rw [hcomma] at this
      simp [isSpaceChar] at this
    rw [splitCommaAux_no_comma hnc]
    simp [hnil]
  case isFalse h =>
    rcases h2 : splitCommaAux s.data with _ | _
    all_goals {
      congr 1
      funext tok
      simp only [isDigitsChars]
      split <;> split <;> simp_all
    }

/-- C10. With a fitted ICA model (and loaded data) present, for every
exclusion string the applied exclusion set is exactly the comma-separated
tokens consisting solely of digits (after stripping); all other tokens
(letters, negatives, decimals, empty fields) are silently dropped: no
error event is produced and the digit tokens are applied to both the
model and the working copy. -/
theorem C10_apply_ica_token_filter (B : Backend) (s : WorkerState)
    (m : ICAModel) (r : RawData) (estr : String)
    (hm : s.ica = some m) (hr : s.raw = some r)
    (hok : B.icaApplyOk { m with exclude := digitTokens estr } r = none) :
    parseExcludes estr = digitTokens estr ∧
    (apply_ica B estr s).1.ica = some { m with exclude := digitTokens estr } ∧
    (apply_ica B estr s).1.raw =
      some { r with transform := r.transform ++ [Xform.icaApplied (digitTokens estr)] } ∧
    ((apply_ica B estr s).2.filter isErrorEvent) = [] := by
  have hp := parseExcludes_eq_digitTokens estr
  refine ⟨hp, ?_, ?_, ?_⟩ <;>
    simp [apply_ica, hm, hr, hp, hok, isErrorEvent]

/-- Witness for C10: on the mixed input `"0, x, -3, 2.5, , 7"` the
exclusion set is `[0, 7]`, with no error event. -/
theorem C10_witness :
    (parseExcludes mixedExcludeStr = digitTokens mixedExcludeStr ∧
     (apply_ica okBackend mixedExcludeStr icaWorker).1.ica =
       some { nComponents := 15, fittedOn := [], exclude := digitTokens mixedExcludeStr } ∧
     (apply_ica okBackend mixedExcludeStr icaWorker).1.raw =
       some { demoRaw with
              transform := demoRaw.transform ++
                [Xform.icaApplied (digitTokens mixedExcludeStr)] } ∧
     ((apply_ica okBackend mixedExcludeStr icaWorker).2.filter isErrorEvent) = []) ∧
    digitTokens mixedExcludeStr = [0, 7] :=
  ⟨C10_apply_ica_token_filter okBackend icaWorker ⟨15, [], []⟩ demoRaw
      mixedExcludeStr rfl rfl rfl,
   by decide⟩

/-- C9. A session-restore request is only ever dispatched after the
trust warning is confirmed: if `on_open_project` emits a load-session
request the user confirmed the warning, and declining the warning emits
nothing and leaves the whole state unchanged. -/
theorem C9_restore_trust_gate (B : Backend) (w : World) (a : AppState)
    (p : String) (ch : Option String) (c : Bool)
    (h : (on_open_project a ch c).2.isSome = true) :
    c = true ∧
    on_open_project a (some p) false = (a, none) ∧
    dispatch B (.openProject (some p) false) w = w := by
  refine ⟨?_, rfl, rfl⟩
  cases ch with
  | none => simp [on_open_project] at h
  | some q =>
    cases c with
    | false => simp [on_open_project] at h
    | true => rfl

/-- Witness for C9: opening `"s.nflow"` with the warning confirmed does
emit the request (so the hypothesis holds), and declining is a no-op. -/
theorem C9_witness :
    true = true ∧
    on_open_project initApp (some "s.nflow") false = (initApp, none) ∧
    dispatch okBackend (.openProject (some "s.nflow") false) initWorld = initWorld :=
  C9_restore_trust_gate okBackend initWorld initApp "s.nflow" (some "s.nflow") true rfl

/-- C5 counterexample. In a session that already has an epoch
collection (trigger `OLD`), a second segmentation request through the UI
(`create_epochs_click` with trigger `A` selected) leaves the prior
collection in place: the stored collection afterwards is still the `OLD`
one, not a newly segmented `A` collection. -/
theorem C5_counterexample :
    (dispatch okBackend .createEpochsClick epochsWorld).app.worker.epochs =
      some oldEpochs ∧
    oldEpochs.eventName = "OLD" ∧
    epochsWorld.app.ui.eventSelected = "A" ∧
    ("OLD" : String) ≠ "A" := by
  exact ⟨by decide, rfl, rfl, by decide⟩

/-- C5 amended. A second segmentation request that reaches the worker
(`EEGWorker.create_epochs`) replaces the prior `EpochCollection` entirely
with the newly segmented one; but the `create_epochs_click` handler never
dispatches a segmentation request while an epoch collection already
exists — it short-circuits and keeps the prior collection, so through the
UI the prior collection remains reachable. -/
theorem C5_amended_replacement (B : Backend) (s : WorkerState) (r : RawData)
    (evs eid : List String) (old : EpochsData) (en : String) (t0 t1 : Rat)
    (b : Bool) (w : World)
    (hr : s.raw = some r) (he : s.events = some evs) (hi : s.event_id = some eid)
    (hold : s.epochs = some old) (hen : eid.contains en = true)
    (hok : B.epochsOk r en t0 t1 = none)
    (hw : w.app.worker.epochs = some old) :
    (create_epochs B en t0 t1 b s).1.epochs =
      some ⟨en, t0, t1, matchingEvents en evs, b, r.chNames, r.transform⟩ ∧
    (dispatch B .createEpochsClick w).app.worker.epochs = some old := by
  constructor
  · have hmem : en ∈ eid := by simpa using hen
    simp [create_epochs, hr, he, hi, hmem, hok]
  · have hsome : w.app.worker.epochs.isSome = true := by rw [hw]; rfl
    simp [dispatch, hsome, hw]

/-- Witness for C5 amended: at the worker level segmenting `A` over the
demo session with a prior `OLD` collection yields the fresh 3-epoch `A`
collection; at the UI level the `OLD` collection survives the click. -/
theorem C5_amended_witness :
    (create_epochs okBackend "A" (Rat.mk' (-1) 5) (Rat.mk' 1 2) true
        epochsWorld.app.worker).1.epochs =
      some ⟨"A", Rat.mk' (-1) 5, Rat.mk' 1 2,
        matchingEvents "A" demoRaw.annotations, true, demoRaw.chNames,
        demoRaw.transform⟩ ∧
    (dispatch okBackend .createEpochsClick epochsWorld).app.worker.epochs =
      some oldEpochs :=
  C5_amended_replacement okBackend epochsWorld.app.worker demoRaw
    demoRaw.annotations demoRaw.annotations.dedup oldEpochs "A"
    (Rat.mk' (-1) 5) (Rat.mk' 1 2) true epochsWorld
    rfl rfl rfl rfl (by decide) rfl rfl

/-- C6 counterexample. After fitting ICA and segmenting on the first
dataset and then loading a second dataset, the fitted ICA model and the
epoch collection from the first dataset are still present, and the stale
model is applied to the newly loaded dataset without any error. -/
theorem C6_counterexample :
    reloadW3.app.worker.ica = some ⟨15, [], []⟩ ∧
    reloadW3.app.worker.epochs.isSome = true ∧
    errorLogCount reloadW4.app = 0 ∧
    reloadW4.app.worker.raw =
      some { demoRaw with
             filenames := ["sub2.fif"]
             transform := [Xform.icaApplied [0]] } := by
  exact ⟨by decide, by decide, by decide, by decide⟩

/-- C6 amended. `load_data` is re-entrant for the dataset itself: a
successful load replaces the working copy and pristine copy wholesale,
but it does not reset the derived artifacts — the fitted ICA model and
the epoch collection of the previous dataset survive the reload (and, as
the counterexample shows, the stale model can be applied to the new
dataset). -/
theorem C6_amended_reload_keeps_artifacts (B : Backend) (path : String)
    (s : WorkerState) (r0 : RawData)
    (hext : sEndsWith path ".fif" = true)
    (hread : B.readRaw path = .ok r0) :
    (load_data B path s).1.ica = s.ica ∧
    (load_data B path s).1.epochs = s.epochs ∧
    (load_data B path s).1.raw =
      some (if r0.montage then r0 else { r0 with montage := true }) := by
  unfold load_data
  simp only [hext, hread]
  rcases hev : B.eventsOk (if r0.montage then r0 else { r0 with montage := true }) with _ | q <;>
    rcases hm : r0.montage with _ | _ <;>
      simp_all

/-- Witness for C6 amended: reloading `sub2.fif` over the stale session
keeps the fitted model and epoch collection and swaps in the new raw. -/
theorem C6_amended_witness :
    (load_data okBackend "sub2.fif" staleWorker).1.ica = staleWorker.ica ∧
    (load_data okBackend "sub2.fif" staleWorker).1.epochs = staleWorker.epochs ∧
    (load_data okBackend "sub2.fif" staleWorker).1.raw =
      some (if ({ demoRaw with filenames := ["sub2.fif"] } : RawData).montage then
        { demoRaw with filenames := ["sub2.fif"] }
      else { { demoRaw with filenames := ["sub2.fif"] } with montage := true }) :=
  C6_amended_reload_keeps_artifacts okBackend "sub2.fif" staleWorker
    { demoRaw with filenames := ["sub2.fif"] } (by decide) rfl

/-- The sequential executor serves every submitted request: each request
in the queue produces exactly one event group, in submission order. -/
lemma runRequests_length (B : Backend) (reqs : List Request) (s : WorkerState) :
    (runRequests B reqs s).2.length = reqs.length := by
  induction reqs generalizing s with
  | nil => rfl
  | cons r rest ih => simp [runRequests, ih]

/-- C8. Backend exceptions are caught at every worker-operation
boundary and converted to error events, and the executor survives to
serve every subsequent request: the executor produces one event group per
submitted request no matter what the backend does, and on the cited
operations (`load_data`, `run_pipeline`) a raising backend yields exactly
an error event with the state unchanged. -/
theorem C8_backend_errors_contained (B : Backend) (reqs : List Request)
    (s : WorkerState) (path : String) (l h n : Rat) (r : RawData)
    (e1 e2 : String)
    (hext : sEndsWith path ".fif" = true)
    (hread : B.readRaw path = .error e1)
    (hr : s.raw = some r) (hl : l > 0)
    (hfil : B.filterOk r (some l) (if h > 0 then some h else none) = some e2) :
    (runRequests B reqs s).2.length = reqs.length ∧
    load_data B path s = (s,
      [WEvent.log ("Function: load_data | Loading: " ++ basenameOf path),
       WEvent.errorOccurred ("Data Loading Error: " ++ e1)]) ∧
    run_pipeline B l h n s = (s,
      [WEvent.log "Starting preprocessing pipeline...",
       WEvent.log "Applying Bandpass Filter",
       WEvent.errorOccurred ("Pipeline Error: " ++ e2)]) := by
  refine ⟨runRequests_length B reqs s, ?_, ?_⟩
  · unfold load_data
    simp [hext, hread]
  · unfold run_pipeline
    simp [hr, hl, hfil]

/-- Witness for C8: with a backend whose read and filter calls raise, the
fresh executor still answers a `compute_erp` request, and both cited
operations convert the raised errors into error events. -/
theorem C8_witness :
    (runRequests failBackend [.computeErp] icaWorker).2.length = 1 ∧
    load_data failBackend "x.fif" icaWorker = (icaWorker,
      [WEvent.log ("Function: load_data | Loading: " ++ basenameOf "x.fif"),
       WEvent.errorOccurred ("Data Loading Error: " ++ "read failure")]) ∧
    run_pipeline failBackend 1 40 50 icaWorker = (icaWorker,
      [WEvent.log "Starting preprocessing pipeline...",
       WEvent.log "Applying Bandpass Filter",
       WEvent.errorOccurred ("Pipeline Error: " ++ "filter failure")]) :=
  C8_backend_errors_contained failBackend [.computeErp] icaWorker "x.fif"
    1 40 50 demoRaw "read failure" "filter failure"
    (by decide) rfl rfl (by decide) (by decide)

/-- C2 counterexample. In the concrete scenario
`load; filter(1,40,50); segment("A", [-0.2,0.5]); average()` over the
demo dataset, the lineage log before `average` has exactly 2 entries
(load and filter) — not 3: segmentation adds no lineage entry.  The
other parts of the claim hold: `average` adds no entry and the ERP
source epoch count equals the number of `A` occurrences (3). -/
theorem C2_counterexample :
    scenSegment.app.pipelineHistory.length = 2 ∧
    ¬ scenSegment.app.pipelineHistory.length = 3 ∧
    scenAverage.app.pipelineHistory = scenSegment.app.pipelineHistory ∧
    scenAverage.app.lastErp = some ⟨3, demoRaw.chNames⟩ ∧
    (demoRaw.annotations.filter (fun l => l = "A")).length = 3 := by
  exact ⟨by decide, by decide, by decide, by decide, by decide⟩

/-- C2 amended. In the scenario
`load; filter(1,40,50); segment("A"); average()` over the 8-channel/120 s
dataset with any annotation stream containing `A`: the lineage log before
`average` has exactly 2 entries — load then filter, in order (the
segmentation is not logged as a lineage entry); `average` adds no entry;
and the resulting ERP source epoch count equals the number of `A`
occurrences in the event list of the dataset. -/
theorem C2_amended_scenario (anns : List String) (hA : "A" ∈ anns) :
    (c2W3 anns).app.pipelineHistory =
      [HistEntry.mk "data_loaded" (.loaded "sub1" "raw"), filterEntry 1 40 50] ∧
    (c2W4 anns).app.pipelineHistory = (c2W3 anns).app.pipelineHistory ∧
    (c2W4 anns).app.lastErp =
      some ⟨(anns.filter (fun l => l = "A")).length, demoRaw.chNames⟩ := by
  have hA' : "A" ∈ anns.dedup := List.mem_dedup.mpr hA
  have hne : anns.dedup.isEmpty = false := by
    have := List.ne_nil_of_mem hA'
    simp [List.isEmpty_iff, this]
  have e1 : sEndsWith "sub1.fif" ".fif" = true := by decide
  have r1 : ((1 : Rat) > 0) := by decide
  have r40 : ((40 : Rat) > 0) := by decide
  have r50 : ((50 : Rat) > 0) := by decide
  have hstem : stemOf "sub1.fif" = "sub1" := by decide
  have hAA : ¬ (("A" : String) = "All Events") := by decide
  refine ⟨?_, ?_, ?_⟩ <;>
    simp [c2W1, c2W2, c2W3, c2W4, dispatch, runWorkerRequest, step,
      load_data, run_pipeline, create_epochs, compute_erp, handleEvent,
      mkBackend, demoRaw, initWorld, initApp, initUi, initWorker,
      matchingEvents, filterEntry, e1, r1, r40, r50, hstem, hAA, hA', hne]

/-- Witness for C2 amended: the demo annotation stream contains `A`, and
there the lineage log is the 2-entry load/filter log while the ERP
averages the 3 `A` epochs. -/
theorem C2_amended_witness :
    (c2W3 ["A", "B", "A", "B", "A"]).app.pipelineHistory =
      [HistEntry.mk "data_loaded" (.loaded "sub1" "raw"), filterEntry 1 40 50] ∧
    (c2W4 ["A", "B", "A", "B", "A"]).app.pipelineHistory =
      (c2W3 ["A", "B", "A", "B", "A"]).app.pipelineHistory ∧
    (c2W4 ["A", "B", "A", "B", "A"]).app.lastErp =
      some ⟨((["A", "B", "A", "B", "A"] : List String).filter
        (fun l => l = "A")).length, demoRaw.chNames⟩ :=
  C2_amended_scenario ["A", "B", "A", "B", "A"] (by decide)

/-- C7. Two successive filter requests on a loaded dataset mutate the
same working copy cumulatively — the transformations of the second filter are
appended after those of the first, i.e. applied to the output of the first, not
to the original data; the lineage log gains exactly two entries, in
submission order; and the channel count and sample count of the working copy
are unchanged by both filters. -/
theorem C7_cumulative_filters (B : Backend) (w : World) (r : RawData)
    (l1 h1 n1 l2 h2 n2 : Rat)
    (hraw : w.app.worker.raw = some r)
    (hpend : w.app.pendingIcaExcludes = none)
    (hB1 : ∀ rr lf hf, B.filterOk rr lf hf = none)
    (hB2 : ∀ rr f, B.notchOk rr f = none)
    (hl1 : l1 > 0) (hl2 : l2 > 0) :
    (dispatch B (.launchPipeline l2 h2 n2)
        (dispatch B (.launchPipeline l1 h1 n1) w)).app.worker.raw =
      some { r with transform :=
        (r.transform ++ filterXforms l1 h1 n1) ++ filterXforms l2 h2 n2 } ∧
    (dispatch B (.launchPipeline l2 h2 n2)
        (dispatch B (.launchPipeline l1 h1 n1) w)).app.pipelineHistory =
      w.app.pipelineHistory ++ [filterEntry l1 h1 n1, filterEntry l2 h2 n2] ∧
    ({ r with transform :=
        (r.transform ++ filterXforms l1 h1 n1) ++ filterXforms l2 h2 n2
      } : RawData).nChannels = r.nChannels ∧
    ({ r with transform :=
        (r.transform ++ filterXforms l1 h1 n1) ++ filterXforms l2 h2 n2
      } : RawData).nSamples = r.nSamples := by
  refine ⟨?_, ?_, rfl, rfl⟩ <;>
  · by_cases hn1 : n1 > 0 <;> by_cases hn2 : n2 > 0 <;>
      simp [dispatch, runWorkerRequest, step, run_pipeline, handleEvent,
        filterXforms, filterEntry, hraw, hpend, hB1, hB2, hl1, hl2, hn1, hn2]

/-- Witness for C7: `filter(1,40,50)` then `filter(2,30,0)` on the loaded
demo session stack their transformations in order, append exactly the two
lineage entries, and leave the 8-channel/12000-sample shape unchanged. -/
theorem C7_witness :
    (dispatch okBackend (.launchPipeline 2 30 0)
        (dispatch okBackend (.launchPipeline 1 40 50) scenLoad)).app.worker.raw =
      some { ({ demoRaw with filenames := ["sub1.fif"] } : RawData) with
             transform :=
        (({ demoRaw with filenames := ["sub1.fif"] } : RawData).transform ++
          filterXforms 1 40 50) ++ filterXforms 2 30 0 } ∧
    (dispatch okBackend (.launchPipeline 2 30 0)
        (dispatch okBackend (.launchPipeline 1 40 50) scenLoad)).app.pipelineHistory =
      scenLoad.app.pipelineHistory ++ [filterEntry 1 40 50, filterEntry 2 30 0] ∧
    ({ ({ demoRaw with filenames := ["sub1.fif"] } : RawData) with
       transform :=
        (({ demoRaw with filenames := ["sub1.fif"] } : RawData).transform ++
          filterXforms 1 40 50) ++ filterXforms 2 30 0 } : RawData).nChannels =
      ({ demoRaw with filenames := ["sub1.fif"] } : RawData).nChannels ∧
    ({ ({ demoRaw with filenames := ["sub1.fif"] } : RawData) with
       transform :=
        (({ demoRaw with filenames := ["sub1.fif"] } : RawData).transform ++
          filterXforms 1 40 50) ++ filterXforms 2 30 0 } : RawData).nSamples =
      ({ demoRaw with filenames := ["sub1.fif"] } : RawData).nSamples :=
  C7_cumulative_filters okBackend scenLoad
    { demoRaw with filenames := ["sub1.fif"] } 1 40 50 2 30 0
    (by decide) (by decide) (fun _ _ _ => rfl) (fun _ _ => rfl)
    (by decide) (by decide)

/-- Restoring a session payload does not touch the worker object: the
worker fields were already replaced by `load_session`. -/
lemma restoreSessionState_worker (a : AppState) (p : Payload) :
    (restoreSessionState a p).worker = a.worker := by
  unfold restoreSessionState restoreUiForData
  by_cases h1 : p.raw.isSome <;> by_cases h2 : p.epochs.isSome <;>
    by_cases h3 : p.epochsData.isSome <;> simp [h1, h2, h3]

/-- Restoring a session payload reinstates exactly the saved lineage
log. -/
lemma restoreSessionState_history (a : AppState) (p : Payload) :
    (restoreSessionState a p).pipelineHistory = p.pipelineHistory := by
  unfold restoreSessionState restoreUiForData
  by_cases h1 : p.raw.isSome <;> by_cases h2 : p.epochs.isSome <;>
    by_cases h3 : p.epochsData.isSome <;> simp [h1, h2, h3]

/-- Looking up the just-written session artifact finds it. -/
lemma lookup_cons_self {β : Type} (k : String) (v : β) (l : List (String × β)) :
    List.lookup k ((k, v) :: l) = some v := by
  simp [List.lookup]

/-- C3. Saving a session to a file and restoring from that file
reproduces a lineage log identical to the saved one (same entries, same
order, same kinds and parameters) and a StageGate-derived state (which of
dataset, decomposition model, epochs and events are present) identical to
the state at save time. -/
theorem C3_save_restore_roundtrip (B : Backend) (w : World) (path : String)
    (h : w.app.worker.raw.isSome = true ∨ w.app.worker.epochs.isSome = true) :
    (dispatch B (.openProject (some path) true)
        (dispatch B (.saveProjectAs path) w)).app.pipelineHistory =
      w.app.pipelineHistory ∧
    stageGateState (dispatch B (.openProject (some path) true)
        (dispatch B (.saveProjectAs path) w)).app.worker =
      stageGateState w.app.worker := by
  have hguard : ¬ (w.app.worker.raw = none ∧ w.app.worker.epochs = none) := by
    rintro ⟨h1, h2⟩
    rcases h with h | h <;> simp_all
  constructor <;>
    simp [dispatch, on_open_project, save_session, load_session, handleEvent,
      collectSessionState, stageGateState, restoreSessionState_worker,
      restoreSessionState_history, hguard, lookup_cons_self]

/-- Witness for C3: saving the loaded-and-filtered demo session and
restoring it reproduces its 2-entry lineage log and its stage state. -/
theorem C3_witness :
    (dispatch okBackend (.openProject (some "p.nflow") true)
        (dispatch okBackend (.saveProjectAs "p.nflow") scenFilter)).app.pipelineHistory =
      scenFilter.app.pipelineHistory ∧
    stageGateState (dispatch okBackend (.openProject (some "p.nflow") true)
        (dispatch okBackend (.saveProjectAs "p.nflow") scenFilter)).app.worker =
      stageGateState scenFilter.app.worker :=
  C3_save_restore_roundtrip okBackend scenFilter "p.nflow" (Or.inl (by decide))

/-- A run of successfully processed items contributes one progress event
per item and advances the success counter by the length of the run. -/
lemma batchLoop_all_ok (p : String → Except String Unit) (t : Nat) :
    ∀ (items : List String) (i c f : Nat),
      (∀ it ∈ items, isOkE (p it) = true) →
      batchLoop p (fun _ => false) t items i c f =
        progEvents t i items ++ [.summary (c + items.length) f 0] := by
  intro items
  induction items with
  | nil => intro i c f _; simp [batchLoop, progEvents]
  | cons x xs ih =>
    intro i c f hok
    have hx : isOkE (p x) = true := hok x (List.mem_cons_self x xs)
    rcases hpx : p x with u | e
    · rw [hpx] at hx; simp [isOkE] at hx
    · have := ih (i + 1) (c + 1) f fun it hit => hok it (List.mem_cons_of_mem x hit)
      simp [batchLoop, progEvents, hpx, this, Nat.add_comm, Nat.add_assoc,
        Nat.add_left_comm]

/-- A successfully processed prefix passes the batch loop through to the
remainder, shifting the index and success counters. -/
lemma batchLoop_ok_front (p : String → Except String Unit) (t : Nat)
    (rest : List String) :
    ∀ (pre : List String) (i c f : Nat),
      (∀ it ∈ pre, isOkE (p it) = true) →
      batchLoop p (fun _ => false) t (pre ++ rest) i c f =
        progEvents t i pre ++
          batchLoop p (fun _ => false) t rest (i + pre.length) (c + pre.length) f := by
  intro pre
  induction pre with
  | nil => intro i c f _; simp [progEvents]
  | cons x xs ih =>
    intro i c f hok
    have hx : isOkE (p x) = true := hok x (List.mem_cons_self x xs)
    rcases hpx : p x with u | e
    · rw [hpx] at hx; simp [isOkE] at hx
    · have := ih (i + 1) (c + 1) f fun it hit => hok it (List.mem_cons_of_mem x hit)
      simp [batchLoop, progEvents, hpx, this, Nat.add_comm, Nat.add_assoc,
        Nat.add_left_comm]

/-- Every item of a successfully processed run receives a progress
event. -/
lemma progEvents_mem (t : Nat) :
    ∀ (items : List String) (i : Nat) (it : String), it ∈ items →
      ∃ idx, BEvent.progress idx t it ∈ progEvents t i items := by
  intro items
  induction items with
  | nil => intro i it h; cases h
  | cons x xs ih =>
    intro i it h
    rcases List.mem_cons.mp h with h | h
    · exact ⟨i + 1, by simp [progEvents, h]⟩
    · rcases ih (i + 1) it h with ⟨idx, hidx⟩
      exact ⟨idx, by simp [progEvents, hidx]⟩

/-- C4. For a batch over `N` inputs in which exactly one item fails,
the terminal summary reports `N − 1` successes and `1` failure, and every
item after the failing one is still attempted (it gets its own progress
event): the failure of one item never aborts the batch. -/
theorem C4_batch_single_failure (process : String → Except String Unit)
    (pre post : List String) (bad : String) (e : String)
    (hpre : ∀ it ∈ pre, isOkE (process it) = true)
    (hpost : ∀ it ∈ post, isOkE (process it) = true)
    (hbad : process bad = .error e) :
    run_batch_job process (fun _ => false) (pre ++ bad :: post) =
      progEvents (pre ++ bad :: post).length 0 pre ++
        (BEvent.itemError bad e ::
         BEvent.progress (pre.length + 1) (pre ++ bad :: post).length bad ::
          (progEvents (pre ++ bad :: post).length (pre.length + 1) post ++
           [BEvent.summary (pre.length + post.length) 1 0])) ∧
    pre.length + post.length + 1 = (pre ++ bad :: post).length ∧
    (∀ it ∈ post, ∃ idx,
      BEvent.progress idx (pre ++ bad :: post).length it ∈
        run_batch_job process (fun _ => false) (pre ++ bad :: post)) := by
  have htrace :
      run_batch_job process (fun _ => false) (pre ++ bad :: post) =
        progEvents (pre ++ bad :: post).length 0 pre ++
          (BEvent.itemError bad e ::
           BEvent.progress (pre.length + 1) (pre ++ bad :: post).length bad ::
            (progEvents (pre ++ bad :: post).length (pre.length + 1) post ++
             [BEvent.summary (pre.length + post.length) 1 0])) := by
    unfold run_batch_job
    rw [batchLoop_ok_front process _ (bad :: post) pre 0 0 0 hpre]
    simp [batchLoop, hbad,
      batchLoop_all_ok process _ post (pre.length + 1) pre.length 1 hpost]
  refine ⟨htrace, by simp; omega, ?_⟩
  intro it hit
  rcases progEvents_mem (pre ++ bad :: post).length post (pre.length + 1) it hit with
    ⟨idx, hidx⟩
  refine ⟨idx, ?_⟩
  rw [htrace]
  exact List.mem_append_right _ (List.mem_cons_of_mem _
    (List.mem_cons_of_mem _ (List.mem_append_left _ hidx)))

/-- Witness for C4: the batch `["a", "b", "c", "d"]` in which only `"b"`
fails reports 3 successes and 1 failure, with `"c"` and `"d"` attempted. -/
theorem C4_witness :
    run_batch_job (fun it => if it = "b" then .error "boom" else .ok ())
        (fun _ => false) (["a"] ++ "b" :: ["c", "d"]) =
      progEvents (["a"] ++ "b" :: ["c", "d"]).length 0 ["a"] ++
        (BEvent.itemError "b" "boom" ::
         BEvent.progress (["a"].length + 1) (["a"] ++ "b" :: ["c", "d"]).length "b" ::
          (progEvents (["a"] ++ "b" :: ["c", "d"]).length (["a"].length + 1) ["c", "d"] ++
           [BEvent.summary (["a"].length + ["c", "d"].length) 1 0])) ∧
    ["a"].length + ["c", "d"].length + 1 = (["a"] ++ "b" :: ["c", "d"]).length ∧
    (∀ it ∈ ["c", "d"], ∃ idx,
      BEvent.progress idx (["a"] ++ "b" :: ["c", "d"]).length it ∈
        run_batch_job (fun it => if it = "b" then .error "boom" else .ok ())
          (fun _ => false) (["a"] ++ "b" :: ["c", "d"])) :=
  C4_batch_single_failure
    (fun it => if it = "b" then .error "boom" else .ok ())
    ["a"] ["c", "d"] "b" "boom"
    (by decide) (by decide) rfl

end NeuroFlow
